import Mathlib

/- Verification development for the e-commerce API repository: a shallow
embedding of the joi create schemas for the country and product resources
(src/validation/schema) and of the authentication workflow
(register, login, forgot-password, validate-otp, reset-password)
exercised by the auth integration tests. -/

namespace EcomApi

/-! ### JSON values and the joi create schemas (src/validation/schema/country.js) -/

/-- A JSON value as received by the validation layer. -/
inductive JValue where
  | null
  | bool (b : Bool)
  | int (n : Int)
  | str (s : String)
deriving DecidableEq

/-- A JSON object: an association list from keys to values. -/
abbrev JObject := List (String × JValue)

/-- Validator for joi.string().allow(null).allow(empty string): any string is
accepted (the empty string is explicitly whitelisted) and so is null.
Type coercion (the joi convert option) is not modelled. -/
def validStringField : JValue → Bool
  | JValue.str _ => true
  | JValue.null => true
  | _ => false

/-- Validator for joi.boolean(): only boolean values are accepted; null and the
empty string are rejected. -/
def validBooleanField : JValue → Bool
  | JValue.bool _ => true
  | _ => false

/-- Validator for joi.number().integer().allow(0): integer values only (zero is
in any case a valid integer); null and the empty string are rejected. -/
def validIntegerField : JValue → Bool
  | JValue.int _ => true
  | _ => false

/-- The regex of the schemas, 24 hex characters anchored at both ends. -/
def isHex24 (s : String) : Bool :=
  s.length == 24 &&
    s.all (fun c =>
      c.isDigit ||
      (decide ('a' ≤ c) && decide (c ≤ 'f')) ||
      (decide ('A' ≤ c) && decide (c ≤ 'F')))

/-- Validator for joi.string().regex(hex24).allow(null).allow(empty string):
null and the empty string are whitelisted, any other string must match the
regex. -/
def validIdField : JValue → Bool
  | JValue.str s => s == "" || isHex24 s
  | JValue.null => true
  | _ => false

/-- The declared fields of the country createSchema with their validators. -/
def countryCreateFields : List (String × (JValue → Bool)) :=
  [("countryName", validStringField),
   ("phoneCode", validStringField),
   ("isActive", validBooleanField),
   ("isDeleted", validBooleanField)]

/-- The declared fields of the product createSchema with their validators. -/
def productCreateFields : List (String × (JValue → Bool)) :=
  [("name", validStringField),
   ("price", validIntegerField),
   ("sellerId", validIdField),
   ("brand", validStringField),
   ("category", validIdField),
   ("subCategory", validIdField),
   ("isActive", validBooleanField),
   ("isDeleted", validBooleanField)]

/-- Look up a key in a JSON object (first occurrence). -/
def lookupField (o : JObject) (k : String) : Option JValue :=
  (o.find? (fun kv => kv.1 == k)).map (fun kv => kv.2)

/-- joi object validation with unknown(true): no declared field is required,
each declared field that is present must pass its validator, and keys outside
the declared set are passed through without any check. -/
def validateObject (fields : List (String × (JValue → Bool))) (o : JObject) : Bool :=
  fields.all (fun kv =>
    match lookupField o kv.1 with
    | none => true
    | some v => kv.2 v)

/-- Validation by the country createSchema. -/
def countryCreateValid (o : JObject) : Bool :=
  validateObject countryCreateFields o

/-- Validation by the product createSchema. -/
def productCreateValid (o : JObject) : Bool :=
  validateObject productCreateFields o

/-- True when the key is declared by the country createSchema. -/
def countryDeclaredKey (k : String) : Bool :=
  countryCreateFields.any (fun kv => kv.1 == k)

/-- True when the key is declared by the product createSchema. -/
def productDeclaredKey (k : String) : Bool :=
  productCreateFields.any (fun kv => kv.1 == k)

/-! ### Authentication workflow

The controller implementation is exercised by the auth integration tests but
is not part of the repository sources at hand; the definitions below are
modelled from the specification of the Auth Workflow Controller, the
Credential Store, the Password Hasher/Verifier, the Token Issuer and the OTP
Generator. -/

/-- Modelled from the spec: resetPasswordLink holds a single active code with
an expiry. -/
structure ResetLink where
  code : String
  expiresAt : Nat
deriving DecidableEq

/-- Modelled from the spec: a User record of the Credential Store, with
resetPasswordLink either empty (none) or holding a single code with expiry. -/
structure User where
  id : String
  username : String
  passwordHash : String
  email : String
  name : String
  mobileNo : String
  resetPasswordLink : Option ResetLink
  loginRetryLimit : Nat
  loginReactiveTime : Nat
deriving DecidableEq

/-- Modelled from the spec: the Credential Store holds user records. -/
abbrev Store := List User

/-- Modelled from the spec: the error taxonomy of the responses. -/
inductive Status where
  | SUCCESS
  | BAD_REQUEST
  | VALIDATION_ERROR
  | RECORD_NOT_FOUND
  | CONFLICT
deriving DecidableEq

/-- Modelled from the spec: an HTTP response with status code, status keyword
and the optional data fields (id and token) that the endpoints return. -/
structure Response where
  statusCode : Nat
  status : Status
  id : Option String
  token : Option String
deriving DecidableEq

/-- The BAD_REQUEST response (HTTP 400, no data). -/
def badRequest : Response :=
  ⟨400, Status.BAD_REQUEST, none, none⟩

/-- The VALIDATION_ERROR response (HTTP 422, no data). -/
def validationError : Response :=
  ⟨422, Status.VALIDATION_ERROR, none, none⟩

/-- The RECORD_NOT_FOUND response (deliberately HTTP 200, no data). -/
def recordNotFound : Response :=
  ⟨200, Status.RECORD_NOT_FOUND, none, none⟩

/-- The CONFLICT response for duplicate registration. -/
def conflict : Response :=
  ⟨400, Status.CONFLICT, none, none⟩

/-- A field of the request body counts as missing when it was not sent or was
sent as the empty string. -/
def isBlank : Option String → Bool
  | none => true
  | some s => s == ""

/-- Modelled from the spec: the Password Hasher, an idealised injective hash;
the Verifier compares the stored hash with the hash of the submitted
password. -/
def hashPassword (p : String) : String :=
  "hashed:" ++ p

/-- Modelled from the spec: the Token Issuer, issuing a bearer token bound to
the user id. -/
def issueToken (uid : String) : String :=
  "token:" ++ uid

/-- Modelled from the spec: the document store generates a fresh id for a
created record. -/
def freshId (store : Store) : String :=
  "user" ++ Nat.repr store.length

/-- Modelled from the spec: the expiry window of a generated OTP code, as an
abstract duration added to the issue time. -/
def otpExpiry : Nat := 10

/-- Predicate selecting a user by username. -/
def byUsername (un : String) (u : User) : Bool :=
  u.username == un

/-- Predicate selecting a user by email. -/
def byEmail (e : String) (u : User) : Bool :=
  u.email == e

/-- A user currently holds the submitted code: resetPasswordLink stores
exactly that code and it has not expired. -/
def codeMatches (c : String) (now : Nat) (u : User) : Bool :=
  match u.resetPasswordLink with
  | none => false
  | some l => c == l.code && decide (now ≤ l.expiresAt)

/-- Replace the resetPasswordLink of a user record. -/
def User.withLink (u : User) (l : Option ResetLink) : User :=
  ⟨u.id, u.username, u.passwordHash, u.email, u.name, u.mobileNo, l,
   u.loginRetryLimit, u.loginReactiveTime⟩

/-- Replace the passwordHash of a user record. -/
def User.withPassword (u : User) (h : String) : User :=
  ⟨u.id, u.username, h, u.email, u.name, u.mobileNo, u.resetPasswordLink,
   u.loginRetryLimit, u.loginReactiveTime⟩

/-- Update the first record satisfying the predicate (the document store
updates the single looked-up record). -/
def updateFirst (p : User → Bool) (f : User → User) : Store → Store
  | [] => []
  | u :: us => if p u then f u :: us else u :: updateFirst p f us

/-- Modelled from the spec: the register input carries the credential and
profile fields of the request body. -/
structure RegisterInput where
  username : Option String
  password : Option String
  email : Option String
  name : Option String
  mobileNo : Option String
deriving DecidableEq

/-- Modelled from the spec: register validates that username, password and
email are non-empty (VALIDATION_ERROR otherwise), fails with CONFLICT when
the username or email already exists, and otherwise creates a User with the
hashed password and returns the fresh id. -/
def register (store : Store) (input : RegisterInput) : Response × Store :=
  if isBlank input.username || isBlank input.password || isBlank input.email then
    (validationError, store)
  else
    let un := input.username.getD ""
    let em := input.email.getD ""
    if store.any (fun u => u.username == un || u.email == em) then
      (conflict, store)
    else
      let uid := freshId store
      let newUser : User :=
        ⟨uid, un, hashPassword (input.password.getD ""), em,
         input.name.getD "", input.mobileNo.getD "", none, 0, 0⟩
      (⟨200, Status.SUCCESS, some uid, none⟩, store ++ [newUser])

/-- Modelled from the spec: login fails with BAD_REQUEST when either field is
missing, when no user has the username, or when the password does not verify
against the stored hash; on success it returns the user id together with a
token bound to that id. The store is never modified. -/
def login (store : Store) (username password : Option String) : Response × Store :=
  if isBlank username || isBlank password then
    (badRequest, store)
  else
    match store.find? (byUsername (username.getD "")) with
    | none => (badRequest, store)
    | some u =>
      if u.passwordHash == hashPassword (password.getD "") then
        (⟨200, Status.SUCCESS, some u.id, some (issueToken u.id)⟩, store)
      else
        (badRequest, store)

/-- Modelled from the spec: forgotPassword fails with VALIDATION_ERROR when the
email is empty, returns RECORD_NOT_FOUND (HTTP 200) when no user has the
email, and otherwise stores a numeric OTP code with an expiry on the
resetPasswordLink of the looked-up user and returns SUCCESS. The generated
numeric code is passed in as the otp argument (the OTP Generator draws it at
random). -/
def forgotPassword (store : Store) (email : Option String) (otp now : Nat) :
    Response × Store :=
  if isBlank email then
    (validationError, store)
  else
    let e := email.getD ""
    if store.any (byEmail e) then
      (⟨200, Status.SUCCESS, none, none⟩,
       updateFirst (byEmail e)
         (fun u => u.withLink (some ⟨Nat.repr otp, now + otpExpiry⟩)) store)
    else
      (recordNotFound, store)

/-- Modelled from the spec: validateOtp fails with BAD_REQUEST when the otp is
missing or no user has a matching non-expired code; on a match it returns
SUCCESS and leaves the store untouched, so the code remains valid for the
subsequent reset step. -/
def validateOtp (store : Store) (otp : Option String) (now : Nat) :
    Response × Store :=
  match otp with
  | none => (badRequest, store)
  | some c =>
    if store.any (codeMatches c now) then
      (⟨200, Status.SUCCESS, none, none⟩, store)
    else
      (badRequest, store)

/-- Modelled from the spec: resetPassword fails with BAD_REQUEST when either
field is missing or no user has a matching non-expired code; on success it
replaces the passwordHash of the matched user with the hash of the new
password, clears the resetPasswordLink and returns SUCCESS. -/
def resetPassword (store : Store) (code newPassword : Option String) (now : Nat) :
    Response × Store :=
  if isBlank code || isBlank newPassword then
    (badRequest, store)
  else
    let c := code.getD ""
    if store.any (codeMatches c now) then
      (⟨200, Status.SUCCESS, none, none⟩,
       updateFirst (codeMatches c now)
         (fun u => (u.withPassword (hashPassword (newPassword.getD ""))).withLink none)
         store)
    else
      (badRequest, store)

/-! ### Helper lemmas -/

/-- Nat.toDigitsCore never shortens the accumulator. -/
theorem toDigitsCore_len_ge (b : Nat) : ∀ (f n : Nat) (ds : List Char),
    ds.length ≤ (Nat.toDigitsCore b f n ds).length := by
  intro f
  induction f with
  | zero => intro n ds; simp [Nat.toDigitsCore]
  | succ f ih =>
    intro n ds
    simp only [Nat.toDigitsCore]
    split
    · simp
    · have h := ih (n / b) (Nat.digitChar (n % b) :: ds)
      simp only [List.length_cons] at h
      omega

/-- With positive fuel, Nat.toDigitsCore emits at least one digit. -/
theorem toDigitsCore_len_pos (b f n : Nat) (ds : List Char) :
    ds.length + 1 ≤ (Nat.toDigitsCore b (f + 1) n ds).length := by
  simp only [Nat.toDigitsCore]
  split
  · simp
  · have h := toDigitsCore_len_ge b f (n / b) (Nat.digitChar (n % b) :: ds)
    simp only [List.length_cons] at h
    omega

/-- The decimal representation of a natural number is never the empty
string. -/
theorem repr_ne_empty (n : Nat) : Nat.repr n ≠ "" := by
  intro h
  have h2 := congrArg String.data h
  simp only [Nat.repr, Nat.toDigits, List.asString] at h2
  have h3 := toDigitsCore_len_pos 10 n n []
  rw [h2] at h3
  simp at h3

/-- A generated record id is never empty. -/
theorem freshId_ne_empty (store : Store) : freshId store ≠ "" := by
  intro h
  have h2 := congrArg String.data h
  simp [freshId, String.data_append] at h2

/-- find? skips a prefix on which the predicate is everywhere false. -/
theorem find?_append_forall_false {α : Type} (p : α → Bool) (l₁ l₂ : List α)
    (h : ∀ x ∈ l₁, p x = false) : (l₁ ++ l₂).find? p = l₂.find? p := by
  induction l₁ with
  | nil => rfl
  | cons a as ih =>
    simp only [List.cons_append, List.find?]
    rw [h a (List.mem_cons_self a as)]
    exact ih (fun x hx => h x (List.mem_cons_of_mem a hx))

/-- updateFirst rewrites exactly the distinguished record of a decomposed
store when the predicate is false on the prefix and true there. -/
theorem updateFirst_append_cons (p : User → Bool) (f : User → User)
    (pre post : Store) (u : User)
    (hpre : ∀ v ∈ pre, p v = false) (hu : p u = true) :
    updateFirst p f (pre ++ u :: post) = pre ++ f u :: post := by
  induction pre with
  | nil => simp [updateFirst, hu]
  | cons a as ih =>
    have ha := hpre a (List.mem_cons_self a as)
    simp only [List.cons_append, updateFirst, ha, Bool.false_eq_true, if_false]
    exact congrArg (List.cons a) (ih (fun x hx => hpre x (List.mem_cons_of_mem a hx)))

/-- A user whose link stores the submitted code unexpired matches it. -/
theorem codeMatches_of_link (u : User) (l : ResetLink) (now : Nat)
    (hl : u.resetPasswordLink = some l) (hexp : now ≤ l.expiresAt) :
    codeMatches l.code now u = true := by
  simp [codeMatches, hl, hexp]

/-- List.all agrees on lists where the predicates agree membership-wise. -/
theorem all_congr_mem {α : Type} (l : List α) (p q : α → Bool)
    (h : ∀ x ∈ l, p x = q x) : l.all p = l.all q := by
  induction l with
  | nil => rfl
  | cons a as ih =>
    simp [List.all_cons, h a (List.mem_cons_self a as),
      ih (fun x hx => h x (List.mem_cons_of_mem a hx))]

/-- A concrete user record mirroring the registered test user, holding an
issued reset code (code 12345, expiring at time 20). -/
def johnUser : User :=
  ⟨"6368cbd49a8f987437bd3190", "John.Windler84", hashPassword "UlafGeugEirasOj",
   "Johan.Gerlach17@hotmail.com", "Estelle Windler PhD", "(506) 756-8493",
   some ⟨"12345", 20⟩, 846, 0⟩

/-- A concrete user record mirroring the pre-inserted fixture user, with no
reset code issued. -/
def stewartUser : User :=
  ⟨"63aa001122334455667788aa", "Stewart97", hashPassword "P7a7tF6u4XulCl_",
   "Humberto.Lakin12@hotmail.com", "Gina Deckow", "(232) 793-4260", none, 846, 0⟩

/-! ### Claim theorems -/

/-- C3: login with the username of a registered user and the correct password
returns HTTP 200 with status SUCCESS, the user id, and a token bound to that
user id. -/
theorem c3_login_success (store : Store) (u : User) (un pw : String)
    (hun : un ≠ "") (hpw : pw ≠ "")
    (hfind : store.find? (byUsername un) = some u)
    (hhash : u.passwordHash = hashPassword pw) :
    login store (some un) (some pw) =
      (⟨200, Status.SUCCESS, some u.id, some (issueToken u.id)⟩, store) := by
  simp [login, isBlank, hun, hpw, hfind, hhash]

/-- Witness for C3 at the concrete test user and credentials. -/
theorem c3_login_success_witness :
    login [johnUser] (some "John.Windler84") (some "UlafGeugEirasOj") =
      (⟨200, Status.SUCCESS, some johnUser.id, some (issueToken johnUser.id)⟩,
       [johnUser]) :=
  c3_login_success [johnUser] johnUser "John.Windler84" "UlafGeugEirasOj"
    (by decide) (by decide) (by decide) rfl

/-- C4: a login whose username or password is missing, whose username matches
no stored user, or whose password does not match the stored hash answers
HTTP 400 with status BAD_REQUEST, carries no token, and leaves the store
unchanged. -/
theorem c4_login_failure (store : Store) (username password : Option String)
    (h : isBlank username = true ∨ isBlank password = true ∨
         store.find? (byUsername (username.getD "")) = none ∨
         (∃ u, store.find? (byUsername (username.getD "")) = some u ∧
               u.passwordHash ≠ hashPassword (password.getD ""))) :
    login store username password = (badRequest, store) := by
  rcases h with h | h | h | ⟨u, hu, hne⟩
  · simp [login, h]
  · simp [login, h]
  · unfold login
    split
    · rfl
    · rw [h]
  · unfold login
    split
    · rfl
    · rw [hu]
      simp [hne]

/-- Witness for C4: wrong password at the concrete test user. -/
theorem c4_login_failure_witness :
    login [johnUser] (some "John.Windler84") (some "wrong@password") =
      (badRequest, [johnUser]) :=
  c4_login_failure [johnUser] (some "John.Windler84") (some "wrong@password")
    (Or.inr (Or.inr (Or.inr ⟨johnUser, by decide, by decide⟩)))

/-- C5: forgotPassword answers HTTP 422 VALIDATION_ERROR when the email is
missing or empty, and HTTP 200 (not an error status code) with status
RECORD_NOT_FOUND when a well-formed email matches no stored user. -/
theorem c5_forgot_password_errors (store : Store) (e : String) (otp now : Nat)
    (he : e ≠ "") (habs : ∀ u ∈ store, byEmail e u = false) :
    forgotPassword store none otp now = (validationError, store) ∧
    forgotPassword store (some "") otp now = (validationError, store) ∧
    forgotPassword store (some e) otp now = (recordNotFound, store) ∧
    validationError.statusCode = 422 ∧ recordNotFound.statusCode = 200 := by
  have hany : store.any (byEmail e) = false :=
    List.any_eq_false.mpr (fun x hx => by simp [habs x hx])
  refine ⟨rfl, rfl, ?_, rfl, rfl⟩
  simp [forgotPassword, isBlank, he, hany]

/-- Witness for C5 at an unknown email over the fixture store. -/
theorem c5_forgot_password_errors_witness :
    forgotPassword [johnUser] none 99 5 = (validationError, [johnUser]) ∧
    forgotPassword [johnUser] (some "") 99 5 = (validationError, [johnUser]) ∧
    forgotPassword [johnUser] (some "unavailable.email@hotmail.com") 99 5 =
      (recordNotFound, [johnUser]) ∧
    validationError.statusCode = 422 ∧ recordNotFound.statusCode = 200 :=
  c5_forgot_password_errors [johnUser] "unavailable.email@hotmail.com" 99 5
    (by decide) (by decide)

/-- C7: validateOtp answers HTTP 400 BAD_REQUEST when the otp field is missing
or no user stores a matching non-expired code, and answers SUCCESS exactly
when some user does. -/
theorem c7_validate_otp_errors (store : Store) (now : Nat) :
    validateOtp store none now = (badRequest, store) ∧
    (∀ c, store.any (codeMatches c now) = false →
        validateOtp store (some c) now = (badRequest, store)) ∧
    (∀ c, (validateOtp store (some c) now).1.status = Status.SUCCESS ↔
        ∃ u ∈ store, codeMatches c now u = true) := by
  refine ⟨rfl, ?_, ?_⟩
  · intro c h
    simp [validateOtp, h]
  · intro c
    by_cases h : store.any (codeMatches c now) = true
    · simp [validateOtp, h, List.any_eq_true.mp h]
    · have hn : ¬ ∃ u ∈ store, codeMatches c now u = true :=
        fun hex => h (List.any_eq_true.mpr hex)
      simp [validateOtp, h, badRequest, hn]

/-- Witness for C7: missing otp, a wrong otp, and the stored otp. -/
theorem c7_validate_otp_errors_witness :
    validateOtp [johnUser] none 5 = (badRequest, [johnUser]) ∧
    validateOtp [johnUser] (some "54321") 5 = (badRequest, [johnUser]) ∧
    (validateOtp [johnUser] (some "12345") 5).1.status = Status.SUCCESS := by
  obtain ⟨h1, h2, h3⟩ := c7_validate_otp_errors [johnUser] 5
  exact ⟨h1, h2 "54321" (by decide),
    (h3 "12345").mpr ⟨johnUser, List.mem_cons_self johnUser [], by decide⟩⟩

/-- C2: when a user holds a non-expired code, validateOtp with exactly that
code returns SUCCESS and leaves the store, hence every resetPasswordLink,
unchanged, and resetPassword with the same code still succeeds afterwards. -/
theorem c2_validate_otp_keeps_code (store : Store) (u : User) (l : ResetLink)
    (now : Nat) (npw : String)
    (hu : u ∈ store) (hl : u.resetPasswordLink = some l)
    (hexp : now ≤ l.expiresAt) (hcode : l.code ≠ "") (hnpw : npw ≠ "") :
    validateOtp store (some l.code) now =
      (⟨200, Status.SUCCESS, none, none⟩, store) ∧
    (resetPassword store (some l.code) (some npw) now).1 =
      ⟨200, Status.SUCCESS, none, none⟩ := by
  have hm : codeMatches l.code now u = true := codeMatches_of_link u l now hl hexp
  have hany : store.any (codeMatches l.code now) = true :=
    List.any_eq_true.mpr ⟨u, hu, hm⟩
  constructor
  · simp [validateOtp, hany]
  · simp [resetPassword, isBlank, hcode, hnpw, hany]

/-- Witness for C2 at the concrete test user and its stored code. -/
theorem c2_validate_otp_keeps_code_witness :
    validateOtp [johnUser] (some "12345") 5 =
      (⟨200, Status.SUCCESS, none, none⟩, [johnUser]) ∧
    (resetPassword [johnUser] (some "12345") (some "newPassword") 5).1 =
      ⟨200, Status.SUCCESS, none, none⟩ :=
  c2_validate_otp_keeps_code [johnUser] johnUser ⟨"12345", 20⟩ 5 "newPassword"
    (List.mem_cons_self johnUser []) rfl (by decide) (by decide) (by decide)

/-- C6: forgotPassword with the email of a stored user returns HTTP 200
SUCCESS and afterwards that user holds a numeric reset code with a non-empty
value and an expiry on its resetPasswordLink. -/
theorem c6_forgot_password_success (pre post : Store) (u : User) (otp now : Nat)
    (he : u.email ≠ "")
    (hpre : ∀ v ∈ pre, byEmail u.email v = false) :
    forgotPassword (pre ++ u :: post) (some u.email) otp now =
      (⟨200, Status.SUCCESS, none, none⟩,
       pre ++ u.withLink (some ⟨Nat.repr otp, now + otpExpiry⟩) :: post) ∧
    (u.withLink (some ⟨Nat.repr otp, now + otpExpiry⟩)).resetPasswordLink =
      some ⟨Nat.repr otp, now + otpExpiry⟩ ∧
    Nat.repr otp ≠ "" := by
  have hbe : byEmail u.email u = true := by simp [byEmail]
  have hany : (pre ++ u :: post).any (byEmail u.email) = true :=
    List.any_eq_true.mpr ⟨u, by simp, hbe⟩
  have hupd := updateFirst_append_cons (byEmail u.email)
    (fun v => v.withLink (some ⟨Nat.repr otp, now + otpExpiry⟩)) pre post u hpre hbe
  refine ⟨?_, rfl, repr_ne_empty otp⟩
  simp [forgotPassword, isBlank, he, hany, hupd]

/-- Witness for C6 at the concrete test user. -/
theorem c6_forgot_password_success_witness :
    forgotPassword [johnUser] (some johnUser.email) 4213 5 =
      (⟨200, Status.SUCCESS, none, none⟩,
       [johnUser.withLink (some ⟨Nat.repr 4213, 5 + otpExpiry⟩)]) ∧
    (johnUser.withLink (some ⟨Nat.repr 4213, 5 + otpExpiry⟩)).resetPasswordLink =
      some ⟨Nat.repr 4213, 5 + otpExpiry⟩ ∧
    Nat.repr 4213 ≠ "" :=
  c6_forgot_password_success [] [] johnUser 4213 5 (by decide)
    (fun v hv => absurd hv (List.not_mem_nil v))

/-- C8: register succeeds with HTTP 200 SUCCESS and a non-empty id on fresh
non-empty credentials, creating a user whose stored password is the hash of
the submitted one; it answers VALIDATION_ERROR when a required field is
missing and CONFLICT when the username or email already exists. -/
theorem c8_register (store : Store) (input : RegisterInput) :
    ((isBlank input.username || isBlank input.password || isBlank input.email) = true →
      register store input = (validationError, store)) ∧
    ((isBlank input.username || isBlank input.password || isBlank input.email) = false →
      store.any (fun u =>
        u.username == input.username.getD "" || u.email == input.email.getD "") = true →
      register store input = (conflict, store) ∧ conflict.status = Status.CONFLICT) ∧
    ((isBlank input.username || isBlank input.password || isBlank input.email) = false →
      store.any (fun u =>
        u.username == input.username.getD "" || u.email == input.email.getD "") = false →
      register store input =
        (⟨200, Status.SUCCESS, some (freshId store), none⟩,
         store ++ [⟨freshId store, input.username.getD "",
                    hashPassword (input.password.getD ""), input.email.getD "",
                    input.name.getD "", input.mobileNo.getD "", none, 0, 0⟩]) ∧
      freshId store ≠ "") := by
  refine ⟨?_, ?_, ?_⟩
  · intro h
    simp [register, h]
  · intro h hdup
    exact ⟨by simp [register, h, hdup], rfl⟩
  · intro h hfresh
    exact ⟨by simp [register, h, hfresh], freshId_ne_empty store⟩

/-- Witness for C8: a missing field, a duplicate username, and a fresh
registration over the fixture store. -/
theorem c8_register_witness :
    register [stewartUser] ⟨none, some "pw", some "e@x.com", none, none⟩ =
      (validationError, [stewartUser]) ∧
    (register [stewartUser]
        ⟨some "Stewart97", some "pw", some "e@x.com", none, none⟩ =
      (conflict, [stewartUser]) ∧ conflict.status = Status.CONFLICT) ∧
    (register [stewartUser]
        ⟨some "John.Windler84", some "UlafGeugEirasOj",
         some "Johan.Gerlach17@hotmail.com", some "Estelle Windler PhD",
         some "(506) 756-8493"⟩ =
      (⟨200, Status.SUCCESS, some (freshId [stewartUser]), none⟩,
       [stewartUser] ++
        [⟨freshId [stewartUser], "John.Windler84",
          hashPassword "UlafGeugEirasOj", "Johan.Gerlach17@hotmail.com",
          "Estelle Windler PhD", "(506) 756-8493", none, 0, 0⟩]) ∧
     freshId [stewartUser] ≠ "") := by
  refine ⟨?_, ?_, ?_⟩
  · exact (c8_register [stewartUser] ⟨none, some "pw", some "e@x.com", none, none⟩).1
      (by decide)
  · exact (c8_register [stewartUser]
      ⟨some "Stewart97", some "pw", some "e@x.com", none, none⟩).2.1
      (by decide) (by decide)
  · exact (c8_register [stewartUser]
      ⟨some "John.Windler84", some "UlafGeugEirasOj",
       some "Johan.Gerlach17@hotmail.com", some "Estelle Windler PhD",
       some "(506) 756-8493"⟩).2.2 (by decide) (by decide)

/-- C1: when a user is the sole holder of a valid (matching, non-expired)
reset code, resetPassword with that code and a non-empty new password returns
SUCCESS, replaces the passwordHash so that a subsequent login with the new
password succeeds, and clears the resetPasswordLink so that reusing the same
code fails with BAD_REQUEST. -/
theorem c1_reset_password_success (pre post : Store) (u : User) (l : ResetLink)
    (npw : String) (now : Nat)
    (hl : u.resetPasswordLink = some l) (hexp : now ≤ l.expiresAt)
    (hcode : l.code ≠ "") (hun : u.username ≠ "") (hnpw : npw ≠ "")
    (hpre : ∀ v ∈ pre, codeMatches l.code now v = false)
    (hpost : ∀ v ∈ post, codeMatches l.code now v = false)
    (hpreun : ∀ v ∈ pre, byUsername u.username v = false) :
    resetPassword (pre ++ u :: post) (some l.code) (some npw) now =
      (⟨200, Status.SUCCESS, none, none⟩,
       pre ++ (u.withPassword (hashPassword npw)).withLink none :: post) ∧
    login (pre ++ (u.withPassword (hashPassword npw)).withLink none :: post)
        (some u.username) (some npw) =
      (⟨200, Status.SUCCESS, some u.id, some (issueToken u.id)⟩,
       pre ++ (u.withPassword (hashPassword npw)).withLink none :: post) ∧
    resetPassword (pre ++ (u.withPassword (hashPassword npw)).withLink none :: post)
        (some l.code) (some npw) now =
      (badRequest,
       pre ++ (u.withPassword (hashPassword npw)).withLink none :: post) := by
  have hm : codeMatches l.code now u = true := codeMatches_of_link u l now hl hexp
  have hany : (pre ++ u :: post).any (codeMatches l.code now) = true :=
    List.any_eq_true.mpr ⟨u, by simp, hm⟩
  have hupd := updateFirst_append_cons (codeMatches l.code now)
    (fun v => (v.withPassword (hashPassword npw)).withLink none) pre post u hpre hm
  refine ⟨?_, ?_, ?_⟩
  · simp [resetPassword, isBlank, hcode, hnpw, hany, hupd]
  · have hfind : (pre ++ (u.withPassword (hashPassword npw)).withLink none :: post).find?
        (byUsername u.username) =
        some ((u.withPassword (hashPassword npw)).withLink none) := by
      rw [find?_append_forall_false _ _ _ hpreun]
      simp [List.find?, byUsername, User.withLink, User.withPassword]
    have hb1 : isBlank (some u.username) = false := by simp [isBlank, hun]
    have hb2 : isBlank (some npw) = false := by simp [isBlank, hnpw]
    unfold login
    rw [hb1, hb2]
    simp only [Bool.or_false, Bool.false_eq_true, if_false, Option.getD_some]
    rw [hfind]
    simp [User.withLink, User.withPassword]
  · have hany2 : (pre ++ (u.withPassword (hashPassword npw)).withLink none :: post).any
        (codeMatches l.code now) = false := by
      apply List.any_eq_false.mpr
      intro x hx
      simp only [List.mem_append, List.mem_cons] at hx
      rcases hx with hx | hx | hx
      · simp [hpre x hx]
      · subst hx
        simp [codeMatches, User.withLink]
      · simp [hpost x hx]
    simp [resetPassword, isBlank, hcode, hnpw, hany2]

/-- Witness for C1 at the concrete test user, its stored code, and the new
password of the reset test. -/
theorem c1_reset_password_success_witness :
    resetPassword [johnUser] (some "12345") (some "newPassword") 5 =
      (⟨200, Status.SUCCESS, none, none⟩,
       [(johnUser.withPassword (hashPassword "newPassword")).withLink none]) ∧
    login [(johnUser.withPassword (hashPassword "newPassword")).withLink none]
        (some johnUser.username) (some "newPassword") =
      (⟨200, Status.SUCCESS, some johnUser.id, some (issueToken johnUser.id)⟩,
       [(johnUser.withPassword (hashPassword "newPassword")).withLink none]) ∧
    resetPassword [(johnUser.withPassword (hashPassword "newPassword")).withLink none]
        (some "12345") (some "newPassword") 5 =
      (badRequest,
       [(johnUser.withPassword (hashPassword "newPassword")).withLink none]) :=
  c1_reset_password_success [] [] johnUser ⟨"12345", 20⟩ "newPassword" 5
    rfl (by decide) (by decide) (by decide) (by decide)
    (fun v hv => absurd hv (List.not_mem_nil v))
    (fun v hv => absurd hv (List.not_mem_nil v))
    (fun v hv => absurd hv (List.not_mem_nil v))

/-- C9: the per-user reset-flow state machine on resetPasswordLink.
validateOtp accepts exactly the codes currently stored unexpired by some
user and never changes the store (CodeIssued to Validated keeps the code);
resetPassword accepts exactly those codes, given non-empty inputs, and on
success clears the link of the matched user while replacing its hash
(Validated back to NoReset); a cleared link never matches and an expired
link never matches, so no operation accepts a used or expired code. -/
theorem c9_reset_link_state_machine (store : Store) (now : Nat) (c : String) :
    ((validateOtp store (some c) now).1.status = Status.SUCCESS ↔
        ∃ u ∈ store, codeMatches c now u = true) ∧
    (validateOtp store (some c) now).2 = store ∧
    (∀ npw, (resetPassword store (some c) (some npw) now).1.status = Status.SUCCESS ↔
        (c ≠ "" ∧ npw ≠ "" ∧ ∃ u ∈ store, codeMatches c now u = true)) ∧
    (∀ u l, u.resetPasswordLink = some l → l.expiresAt < now →
        codeMatches c now u = false) ∧
    (∀ u, u.resetPasswordLink = none → codeMatches c now u = false) ∧
    (∀ npw pre u post, store = pre ++ u :: post →
        (∀ v ∈ pre, codeMatches c now v = false) → codeMatches c now u = true →
        c ≠ "" → npw ≠ "" →
        (resetPassword store (some c) (some npw) now).2 =
          pre ++ (u.withPassword (hashPassword npw)).withLink none :: post) := by
  refine ⟨?_, ?_, ?_, ?_, ?_, ?_⟩
  · by_cases h : store.any (codeMatches c now) = true
    · simp [validateOtp, h, List.any_eq_true.mp h]
    · have hn : ¬ ∃ u ∈ store, codeMatches c now u = true :=
        fun hex => h (List.any_eq_true.mpr hex)
      simp [validateOtp, h, badRequest, hn]
  · unfold validateOtp
    split
    · rfl
    · split <;> rfl
  · intro npw
    by_cases hc : c = ""
    · subst hc
      simp [resetPassword, isBlank, badRequest]
    · by_cases hnp : npw = ""
      · subst hnp
        simp [resetPassword, isBlank, badRequest]
      · by_cases h : store.any (codeMatches c now) = true
        · simp [resetPassword, isBlank, hc, hnp, h, List.any_eq_true.mp h]
        · have hn : ¬ ∃ u ∈ store, codeMatches c now u = true :=
            fun hex => h (List.any_eq_true.mpr hex)
          simp [resetPassword, isBlank, hc, hnp, h, badRequest, hn]
  · intro u l hl hlt
    have hn : ¬ now ≤ l.expiresAt := by omega
    simp [codeMatches, hl, hn]
  · intro u hl
    simp [codeMatches, hl]
  · intro npw pre u post hst hpre hm hc hnp
    subst hst
    have hany : (pre ++ u :: post).any (codeMatches c now) = true :=
      List.any_eq_true.mpr ⟨u, by simp, hm⟩
    have hupd := updateFirst_append_cons (codeMatches c now)
      (fun v => (v.withPassword (hashPassword npw)).withLink none) pre post u hpre hm
    simp [resetPassword, isBlank, hc, hnp, hany, hupd]

/-- Witness for C9 at the concrete test user: the stored code is accepted and
cleared, an expired check rejects, and a cleared link rejects. -/
theorem c9_reset_link_state_machine_witness :
    (validateOtp [johnUser] (some "12345") 5).1.status = Status.SUCCESS ∧
    (validateOtp [johnUser] (some "12345") 5).2 = [johnUser] ∧
    (resetPassword [johnUser] (some "12345") (some "newPassword") 5).1.status =
      Status.SUCCESS ∧
    codeMatches "12345" 25 johnUser = false ∧
    codeMatches "12345" 5 ((johnUser.withPassword (hashPassword "x")).withLink none) = false ∧
    (resetPassword [johnUser] (some "12345") (some "newPassword") 5).2 =
      [(johnUser.withPassword (hashPassword "newPassword")).withLink none] := by
  obtain ⟨h1, h2, h3, h4, h5, h6⟩ := c9_reset_link_state_machine [johnUser] 5 "12345"
  obtain ⟨-, -, -, g4, -, -⟩ := c9_reset_link_state_machine [johnUser] 25 "12345"
  refine ⟨?_, h2, ?_, ?_, ?_, ?_⟩
  · exact h1.mpr ⟨johnUser, List.mem_cons_self johnUser [], by decide⟩
  · exact (h3 "newPassword").mpr
      ⟨by decide, by decide, johnUser, List.mem_cons_self johnUser [], by decide⟩
  · exact g4 johnUser ⟨"12345", 20⟩ rfl (by decide)
  · exact h5 ((johnUser.withPassword (hashPassword "x")).withLink none) rfl
  · exact h6 "newPassword" [] johnUser []
      rfl (fun v hv => absurd hv (List.not_mem_nil v)) (by decide) (by decide) (by decide)

/-- C10 as stated fails on the code: a boolean field valued null (and a price
valued null) is rejected by the createSchemas, since joi.boolean() and
joi.number().integer() do not allow null or the empty string. -/
theorem c10_null_valued_declared_field_rejected :
    countryCreateValid [("isActive", JValue.null)] = false ∧
    productCreateValid [("price", JValue.null)] = false := by
  exact ⟨rfl, rfl⟩

/-- C10 amended: the empty object validates for both createSchemas; keys
outside the declared field set never cause rejection; declared string fields
accept absence, null and the empty string; price accepts exactly integers
(0 included); boolean fields accept exactly booleans; and an object whose
present declared fields carry such accepted values validates. -/
theorem c10_create_schema_permissive :
    countryCreateValid [] = true ∧
    productCreateValid [] = true ∧
    (∀ extra o, (∀ kv ∈ extra, countryDeclaredKey kv.1 = false) →
        countryCreateValid (extra ++ o) = countryCreateValid o) ∧
    (∀ extra o, (∀ kv ∈ extra, productDeclaredKey kv.1 = false) →
        productCreateValid (extra ++ o) = productCreateValid o) ∧
    validStringField JValue.null = true ∧
    validStringField (JValue.str "") = true ∧
    validIdField JValue.null = true ∧
    validIdField (JValue.str "") = true ∧
    (∀ n, validIntegerField (JValue.int n) = true) ∧
    validIntegerField JValue.null = false ∧
    validIntegerField (JValue.str "") = false ∧
    (∀ b, validBooleanField (JValue.bool b) = true) ∧
    validBooleanField JValue.null = false ∧
    validBooleanField (JValue.str "") = false ∧
    countryCreateValid
      [("countryName", JValue.null), ("phoneCode", JValue.str "")] = true ∧
    productCreateValid
      [("name", JValue.null), ("price", JValue.int 0), ("sellerId", JValue.str ""),
       ("brand", JValue.null), ("category", JValue.null),
       ("subCategory", JValue.str "")] = true := by
  refine ⟨rfl, rfl, ?_, ?_, rfl, rfl, rfl, rfl, fun n => rfl, rfl, rfl,
    fun b => rfl, rfl, rfl, rfl, rfl⟩
  · intro extra o hex
    unfold countryCreateValid validateObject
    apply all_congr_mem
    intro kv hkv
    have hkeys : ∀ x ∈ extra, (x.1 == kv.1) = false := by
      intro x hx
      have hnd := hex x hx
      unfold countryDeclaredKey at hnd
      have hall := List.any_eq_false.mp hnd kv hkv
      have hne : ¬ x.1 = kv.1 := fun heq => hall (by simp [heq])
      simpa [beq_eq_false_iff_ne] using hne
    have hlook : lookupField (extra ++ o) kv.1 = lookupField o kv.1 := by
      unfold lookupField
      rw [find?_append_forall_false _ _ _ hkeys]
    rw [hlook]
  · intro extra o hex
    unfold productCreateValid validateObject
    apply all_congr_mem
    intro kv hkv
    have hkeys : ∀ x ∈ extra, (x.1 == kv.1) = false := by
      intro x hx
      have hnd := hex x hx
      unfold productDeclaredKey at hnd
      have hall := List.any_eq_false.mp hnd kv hkv
      have hne : ¬ x.1 = kv.1 := fun heq => hall (by simp [heq])
      simpa [beq_eq_false_iff_ne] using hne
    have hlook : lookupField (extra ++ o) kv.1 = lookupField o kv.1 := by
      unfold lookupField
      rw [find?_append_forall_false _ _ _ hkeys]
    rw [hlook]

/-- Witness for C10 amended: an undeclared key does not change the verdict of
either schema on a concrete object. -/
theorem c10_create_schema_permissive_witness :
    countryCreateValid
        ([("addedBy", JValue.str "x")] ++ [("isActive", JValue.bool true)]) =
      countryCreateValid [("isActive", JValue.bool true)] ∧
    productCreateValid
        ([("wishlist", JValue.int 3)] ++ [("price", JValue.int 0)]) =
      productCreateValid [("price", JValue.int 0)] := by
  obtain ⟨-, -, h3, h4, -⟩ := c10_create_schema_permissive
  exact ⟨h3 [("addedBy", JValue.str "x")] [("isActive", JValue.bool true)] (by decide),
         h4 [("wishlist", JValue.int 3)] [("price", JValue.int 0)] (by decide)⟩

end EcomApi
